import Mathlib

/-!
Verification of the narrow-phase collision primitives in `fcl/gjk.h`
(GJK/EPA query layer).

The header under verification contains, in full: the `MinkowskiDiff`
support adapter, the GJK/EPA data structures (`SimplexV`, `Simplex`,
`SimplexF`, `SimplexList`, the fixed-capacity face/vertex arenas), the
compile-time budgets, `EPA::bind`, `EPA::initialize`, and the two query
entry points `shapeDistance2` / `shapeIntersect2`.  The iterative bodies
`GJK::evaluate` / `EPA::evaluate` are only declared there (they live in a
separate translation unit); the query-layer theorems therefore quantify
over their outcomes, which is exactly how the specification phrases the
corresponding properties ("whenever GJK terminates with status ...").

Scalars are modelled by `ℚ` (the C++ `BVH_REAL` is a double; the model is
the exact-arithmetic idealization), and the square root in
`Vec3f::length` by `Real.sqrt`.  Pointers into the EPA face arena are
modelled by arena indices `Fin EPA_MAX_FACES`, as the spec's design notes
themselves suggest for a reimplementation.
-/

/-- Modelled from the spec: the 3-dimensional vector collaborator (§6) —
`Vec3f` from `fcl/vec_3f.h`, which is consumed, not defined, by `gjk.h`.
Components are exact rationals. -/
structure Vec3 where
  x : ℚ
  y : ℚ
  z : ℚ
deriving DecidableEq

/-- The zero vector; `Vec3f()` default-constructs to all zeroes. -/
def Vec3.zero : Vec3 := ⟨0, 0, 0⟩

/-- Componentwise vector addition. -/
def Vec3.add (a b : Vec3) : Vec3 := ⟨a.x + b.x, a.y + b.y, a.z + b.z⟩

/-- Componentwise vector subtraction. -/
def Vec3.sub (a b : Vec3) : Vec3 := ⟨a.x - b.x, a.y - b.y, a.z - b.z⟩

/-- Componentwise vector negation. -/
def Vec3.neg (a : Vec3) : Vec3 := ⟨-a.x, -a.y, -a.z⟩

/-- Scaling of a vector by a scalar on the right, `v * s` in the C++. -/
def Vec3.smul (a : Vec3) (k : ℚ) : Vec3 := ⟨a.x * k, a.y * k, a.z * k⟩

/-- Euclidean dot product. -/
def Vec3.dot (a b : Vec3) : ℚ := a.x * b.x + a.y * b.y + a.z * b.z

instance : Add Vec3 := ⟨Vec3.add⟩

instance : Sub Vec3 := ⟨Vec3.sub⟩

instance : Neg Vec3 := ⟨Vec3.neg⟩

instance : HMul Vec3 ℚ Vec3 := ⟨Vec3.smul⟩

/-- Modelled from the spec: `Vec3f::length()`, the Euclidean norm (§6's
"length" capability of the vector collaborator). -/
noncomputable def Vec3.length (v : Vec3) : ℝ :=
  Real.sqrt ((v.x * v.x + v.y * v.y + v.z * v.z : ℚ) : ℝ)

/-- Modelled from the spec: the 3x3 rotation-matrix collaborator
(`Matrix3f`, §6), stored as three rows. -/
structure Matrix3 where
  r0 : Vec3
  r1 : Vec3
  r2 : Vec3
deriving DecidableEq

/-- Matrix-vector application (rows dotted with the vector). -/
def Matrix3.mulVec (m : Matrix3) (v : Vec3) : Vec3 :=
  ⟨m.r0.dot v, m.r1.dot v, m.r2.dot v⟩

/-- Matrix transposition. -/
def Matrix3.transpose (m : Matrix3) : Matrix3 :=
  ⟨⟨m.r0.x, m.r1.x, m.r2.x⟩, ⟨m.r0.y, m.r1.y, m.r2.y⟩, ⟨m.r0.z, m.r1.z, m.r2.z⟩⟩

/-- Matrix-matrix product. -/
def Matrix3.mul (a b : Matrix3) : Matrix3 :=
  ⟨⟨a.r0.dot b.transpose.r0, a.r0.dot b.transpose.r1, a.r0.dot b.transpose.r2⟩,
   ⟨a.r1.dot b.transpose.r0, a.r1.dot b.transpose.r1, a.r1.dot b.transpose.r2⟩,
   ⟨a.r2.dot b.transpose.r0, a.r2.dot b.transpose.r1, a.r2.dot b.transpose.r2⟩⟩

/-- Modelled from the spec: `Matrix3f::transposeTimes(B)` computes
`thisᵀ * B` (relative-rotation composition, §6). -/
def Matrix3.transposeTimes (a b : Matrix3) : Matrix3 := a.transpose.mul b

/-- Modelled from the spec: the rigid-transform collaborator
(`SimpleTransform`, §6): a rotation `R` and a translation `T`. -/
structure SimpleTransform where
  R : Matrix3
  T : Vec3
deriving DecidableEq

/-- Application of a rigid transform to a point: `R v + T`. -/
def SimpleTransform.transform (tf : SimpleTransform) (v : Vec3) : Vec3 :=
  tf.R.mulVec v + tf.T

/-- Accessor mirroring `SimpleTransform::getRotation()`. -/
def SimpleTransform.getRotation (tf : SimpleTransform) : Matrix3 := tf.R

/-- Modelled from the spec: `tf1.inverseTimes(tf2) = tf1⁻¹ ∘ tf2`, the
relative-transform composition capability of §6:
rotation `R1ᵀ R2`, translation `R1ᵀ (T2 - T1)`. -/
def SimpleTransform.inverseTimes (tf1 tf2 : SimpleTransform) : SimpleTransform :=
  ⟨tf1.R.transposeTimes tf2.R, tf1.R.transpose.mulVec (tf2.T - tf1.T)⟩

/-- Modelled from the spec: the shape abstraction of §6 exposes exactly one
capability, `support(direction) → point`; a shape is identified with its
support mapping. -/
def ShapeBase : Type := Vec3 → Vec3

/-- Modelled from the spec: `getSupport(shape, dir)` is declared in `gjk.h`
and implemented per shape type elsewhere; per §6 it returns the farthest
point of the shape along `dir`, i.e. it applies the shape's support
mapping. -/
def getSupport (shape : ShapeBase) (dir : Vec3) : Vec3 := shape dir

/-- `MinkowskiDiff` from `gjk.h`: two shape handles, the rotation
`toshape1` composing shape-1's frame into shape-0's frame, and the rigid
transform `toshape0` from shape-0 to shape-1's frame. -/
structure MinkowskiDiff where
  shapes : Fin 2 → ShapeBase
  toshape1 : Matrix3
  toshape0 : SimpleTransform

/-- `MinkowskiDiff::support0(d) = getSupport(shapes[0], d)`. -/
def MinkowskiDiff.support0 (m : MinkowskiDiff) (d : Vec3) : Vec3 :=
  getSupport (m.shapes 0) d

/-- `MinkowskiDiff::support1(d) = toshape0.transform(getSupport(shapes[1], toshape1 * d))`. -/
def MinkowskiDiff.support1 (m : MinkowskiDiff) (d : Vec3) : Vec3 :=
  m.toshape0.transform (getSupport (m.shapes 1) (m.toshape1.mulVec d))

/-- `MinkowskiDiff::support(d) = support0(d) - support1(-d)`. -/
def MinkowskiDiff.support (m : MinkowskiDiff) (d : Vec3) : Vec3 :=
  m.support0 d - m.support1 (-d)

/-- `MinkowskiDiff::support(d, index)`: `support1(d)` when `index` is
non-zero (the C++ tests `if(index)`), else `support0(d)`. -/
def MinkowskiDiff.supportIdx (m : MinkowskiDiff) (d : Vec3) (index : Nat) : Vec3 :=
  if index ≠ 0 then m.support1 d else m.support0 d

/-- `GJK_EPS` from `gjk.h` (`0.000001`). -/
def GJK_EPS : ℚ := 1 / 1000000

/-- `GJK_MAX_ITERATIONS` from `gjk.h`. -/
def GJK_MAX_ITERATIONS : Nat := 128

/-- `GJK::SimplexV`: a support direction `d` and the support point `w` it
produced. -/
structure SimplexV where
  d : Vec3
  w : Vec3
deriving DecidableEq

/-- `GJK::Simplex`: up to four simplex vertices `c` with barycentric
weights `p` and the number `rank` of active entries.  The C arrays of
capacity 4 are modelled as total maps; entries at or beyond `rank` are
never read by the query layer. -/
structure Simplex where
  c : Nat → SimplexV
  p : Nat → ℚ
  rank : Nat

/-- `GJK::Status`. -/
inductive GJKStatus
  | Valid
  | Inside
  | Failed
deriving DecidableEq

/-- Terminal state of a `GJK::evaluate` run as observed by the query
layer: the returned status together with `*getSimplex()`, the terminal
simplex.  `GJK::evaluate` is only declared in the header under
verification, so query-layer theorems quantify over this outcome. -/
structure GJKOutcome where
  status : GJKStatus
  simplex : Simplex

/-- `EPA_MAX_FACES` from `gjk.h`. -/
def EPA_MAX_FACES : Nat := 128

/-- `EPA_MAX_VERTICES` from `gjk.h`. -/
def EPA_MAX_VERTICES : Nat := 64

/-- `EPA_EPS` from `gjk.h` (`0.000001`). -/
def EPA_EPS : ℚ := 1 / 1000000

/-- `EPA_MAX_ITERATIONS` from `gjk.h`. -/
def EPA_MAX_ITERATIONS : Nat := 255

/-- `EPA::Status`. -/
inductive EPAStatus
  | Valid
  | Touching
  | Degenerated
  | NonConvex
  | InvalidHull
  | OutOfFaces
  | OutOfVertices
  | AccuracyReached
  | FallBack
  | Failed
deriving DecidableEq

/-- Modelled from the spec: the spec's status taxonomy (§4.3, §7)
classifies `Degenerated`, `NonConvex` and `InvalidHull` as
degenerate-geometry failures "surfaced to the caller as 'no reliable
result'", and `Failed` as a convergence failure with "no usable result";
these are terminal non-success statuses under every reading of the spec
(`AccuracyReached` is its "normal success"). -/
def EPAStatus.specFailure : EPAStatus → Bool
  | EPAStatus.Degenerated => true
  | EPAStatus.NonConvex => true
  | EPAStatus.InvalidHull => true
  | EPAStatus.Failed => true
  | _ => false

/-- Terminal state of an `EPA::evaluate` run as observed by the query
layer: the returned status and the engine's `result` simplex, `normal`
and `depth` fields.  `EPA::evaluate` is only declared in the header under
verification, so query-layer theorems quantify over this outcome. -/
structure EPAOutcome where
  status : EPAStatus
  result : Simplex
  normal : Vec3
  depth : ℚ

/-- The initial search direction `guess(1, 0, 0)` that both query entry
points construct. -/
def guessDir : Vec3 := ⟨1, 0, 0⟩

/-- The `MinkowskiDiff` both query entry points build:
`shapes[0] = &s1; shapes[1] = &s2;`
`toshape1 = tf2.getRotation().transposeTimes(tf1.getRotation());`
`toshape0 = tf1.inverseTimes(tf2);`. -/
def mkMinkowskiDiff (s1 : ShapeBase) (tf1 : SimpleTransform)
    (s2 : ShapeBase) (tf2 : SimpleTransform) : MinkowskiDiff :=
  { shapes := ![s1, s2]
    toshape1 := tf2.getRotation.transposeTimes tf1.getRotation
    toshape0 := tf1.inverseTimes tf2 }

/-- The single `gjk.evaluate(shape, -guess)` call a query entry point
makes, for a given evaluate semantics `g`.  The entry points are pure, so
naming this shared subterm (the C++ local `gjk`) is sound. -/
def gjkOutOf (g : MinkowskiDiff → Vec3 → GJKOutcome)
    (s1 : ShapeBase) (tf1 : SimpleTransform) (s2 : ShapeBase) (tf2 : SimpleTransform) :
    GJKOutcome :=
  g (mkMinkowskiDiff s1 tf1 s2 tf2) (-guessDir)

/-- The `epa.evaluate(gjk, -guess)` call `shapeIntersect2` makes on the
`GJK::Inside` path, for evaluate semantics `g` and `e`. -/
def epaOutOf (g : MinkowskiDiff → Vec3 → GJKOutcome)
    (e : GJKOutcome → Vec3 → EPAOutcome)
    (s1 : ShapeBase) (tf1 : SimpleTransform) (s2 : ShapeBase) (tf2 : SimpleTransform) :
    EPAOutcome :=
  e (gjkOutOf g s1 tf1 s2 tf2) (-guessDir)

/-- The loop `for(i < rank) w0 += shape.support(c[i]->d, 0) * p[i]`
accumulating the shape-0 witness point from a simplex's barycentric
weights (`w0` starts as the zero vector `Vec3f()`). -/
def witnessSum0 (shape : MinkowskiDiff) (s : Simplex) : Vec3 :=
  (List.range s.rank).foldl (fun w i => w + shape.supportIdx (s.c i).d 0 * s.p i) Vec3.zero

/-- The loop `for(i < rank) w1 += shape.support(-c[i]->d, 1) * p[i]`
accumulating the shape-1 witness point. -/
def witnessSum1 (shape : MinkowskiDiff) (s : Simplex) : Vec3 :=
  (List.range s.rank).foldl (fun w i => w + shape.supportIdx (-(s.c i).d) 1 * s.p i) Vec3.zero

/-- `shapeDistance2` from `gjk.h`, parametric in the `GJK::evaluate`
semantics `g`.  Returns the C++ boolean return value paired with the
value written through the `distance` output pointer (which the source
writes on every path: `(w0 - w1).length()` on `GJK::Valid`, `-1`
otherwise). -/
noncomputable def shapeDistance2 (g : MinkowskiDiff → Vec3 → GJKOutcome)
    (s1 : ShapeBase) (tf1 : SimpleTransform) (s2 : ShapeBase) (tf2 : SimpleTransform) :
    Bool × ℝ :=
  match (gjkOutOf g s1 tf1 s2 tf2).status with
  | GJKStatus.Valid =>
      (true,
        Vec3.length
          (witnessSum0 (mkMinkowskiDiff s1 tf1 s2 tf2) (gjkOutOf g s1 tf1 s2 tf2).simplex -
           witnessSum1 (mkMinkowskiDiff s1 tf1 s2 tf2) (gjkOutOf g s1 tf1 s2 tf2).simplex))
  | _ => (false, -1)

/-- `shapeIntersect2` from `gjk.h`, parametric in the `GJK::evaluate` and
`EPA::evaluate` semantics `g` and `e`.  Returns `none` when the C++
returns `false` (no output is written on that path), and
`some (contact_points, penetration_depth, normal)` when it returns
`true`:
`*penetration_depth = -epa.depth; *normal = -epa.normal;`
`*contact_points = tf1.transform(w0 - epa.normal*(epa.depth*0.5));`. -/
def shapeIntersect2 (g : MinkowskiDiff → Vec3 → GJKOutcome)
    (e : GJKOutcome → Vec3 → EPAOutcome)
    (s1 : ShapeBase) (tf1 : SimpleTransform) (s2 : ShapeBase) (tf2 : SimpleTransform) :
    Option (Vec3 × ℚ × Vec3) :=
  match (gjkOutOf g s1 tf1 s2 tf2).status with
  | GJKStatus.Inside =>
      if (epaOutOf g e s1 tf1 s2 tf2).status ≠ EPAStatus.Failed then
        some
          (tf1.transform
            (witnessSum0 (mkMinkowskiDiff s1 tf1 s2 tf2) (epaOutOf g e s1 tf1 s2 tf2).result -
             (epaOutOf g e s1 tf1 s2 tf2).normal *
               ((epaOutOf g e s1 tf1 s2 tf2).depth * (0.5 : ℚ))),
           -(epaOutOf g e s1 tf1 s2 tf2).depth,
           -(epaOutOf g e s1 tf1 s2 tf2).normal)
      else none
  | _ => none

/-- `EPA::SimplexF`: a polytope face — outward normal `n`, plane distance
`d`, three vertex pointers `c` (arena indices into the vertex store),
three adjacency pointers `f` with local edge indices `e`, the two
intrusive list links `l[0]`/`l[1]` (prev/next, `none` for `NULL`), and
the expansion `pass` marker.  Pointers to faces are modelled as indices
into the fixed face arena. -/
structure SimplexF where
  n : Vec3
  d : ℚ
  c : Fin 3 → Nat
  f : Fin 3 → Option (Fin EPA_MAX_FACES)
  l0 : Option (Fin EPA_MAX_FACES)
  l1 : Option (Fin EPA_MAX_FACES)
  e : Fin 3 → Nat
  pass : Nat

/-- `EPA::SimplexList`: root pointer and element count of one intrusive
doubly-linked list threaded through the face arena; the default
constructor yields `root = NULL, count = 0`. -/
structure SimplexList where
  root : Option (Fin EPA_MAX_FACES)
  count : Nat
deriving DecidableEq

/-- `SimplexList::append(face)` acting on the face arena `F` and the list
header `L`:
`face->l[0] = NULL; face->l[1] = root; if(root) root->l[0] = face;`
`root = face; ++count;`. -/
def listAppend (F : Fin EPA_MAX_FACES → SimplexF) (L : SimplexList)
    (face : Fin EPA_MAX_FACES) : (Fin EPA_MAX_FACES → SimplexF) × SimplexList :=
  let F1 := Function.update F face { F face with l0 := none, l1 := L.root }
  let F2 := match L.root with
    | some r => Function.update F1 r { F1 r with l0 := some face }
    | none => F1
  (F2, { root := some face, count := L.count + 1 })

/-- `SimplexList::remove(face)` acting on the face arena `F` and the list
header `L`, with the source's exact read/write order:
`if(face->l[1]) face->l[1]->l[0] = face->l[0];`
`if(face->l[0]) face->l[0]->l[1] = face->l[1];`
`if(face == root) root = face->l[1]; --count;`. -/
def listRemove (F : Fin EPA_MAX_FACES → SimplexF) (L : SimplexList)
    (face : Fin EPA_MAX_FACES) : (Fin EPA_MAX_FACES → SimplexF) × SimplexList :=
  let F1 := match (F face).l1 with
    | some a => Function.update F a { F a with l0 := (F face).l0 }
    | none => F
  let F2 := match (F1 face).l0 with
    | some b => Function.update F1 b { F1 b with l1 := (F1 face).l1 }
    | none => F1
  (F2, { root := if L.root = some face then (F2 face).l1 else L.root,
         count := L.count - 1 })

/-- `EPA::bind(fa, ea, fb, eb)` on the face arena, with the source's
assignment order:
`fa->e[ea] = eb; fa->f[ea] = fb; fb->e[eb] = ea; fb->f[eb] = fa;`. -/
def EPAbind (F : Fin EPA_MAX_FACES → SimplexF)
    (fa : Fin EPA_MAX_FACES) (ea : Fin 3) (fb : Fin EPA_MAX_FACES) (eb : Fin 3) :
    Fin EPA_MAX_FACES → SimplexF :=
  let F1 := Function.update F fa { F fa with e := Function.update (F fa).e ea eb.val }
  let F2 := Function.update F1 fa { F1 fa with f := Function.update (F1 fa).f ea (some fb) }
  let F3 := Function.update F2 fb { F2 fb with e := Function.update (F2 fb).e eb ea.val }
  Function.update F3 fb { F3 fb with f := Function.update (F3 fb).f eb (some fa) }

/-- The observable state of an `EPA` engine: terminal `status`, `result`
simplex, `normal`, `depth`, the fixed-capacity vertex arena `sv_store`
(64 slots) and face arena `fc_store` (128 slots), the next-free-vertex
cursor `nextsv`, and the two intrusive lists `hull` and `stock`. -/
structure EPAState where
  status : EPAStatus
  result : Simplex
  normal : Vec3
  depth : ℚ
  sv_store : Fin EPA_MAX_VERTICES → SimplexV
  fc_store : Fin EPA_MAX_FACES → SimplexF
  nextsv : Nat
  hull : SimplexList
  stock : SimplexList

/-- One iteration of the `EPA::initialize` loop body at loop counter `i`:
`stock.append(&fc_store[EPA_MAX_FACES - i - 1])`, i.e. append the face at
arena index `i.rev`. -/
def stockRefill (st : EPAState) (i : Fin EPA_MAX_FACES) : EPAState :=
  { st with
      fc_store := (listAppend st.fc_store st.stock i.rev).1
      stock := (listAppend st.fc_store st.stock i.rev).2 }

/-- `EPA::initialize()`:
`status = Failed; normal = Vec3f(0,0,0); depth = 0; nextsv = 0;`
followed by the loop appending all `EPA_MAX_FACES` face slots to `stock`
(and touching nothing else — in particular it does not clear `hull` or
`stock` first). -/
def EPAState.epaInit (s : EPAState) : EPAState :=
  (List.finRange EPA_MAX_FACES).foldl stockRefill
    { s with
        status := EPAStatus.Failed
        normal := Vec3.zero
        depth := 0
        nextsv := 0 }

/-- An all-zero face record.  The C++ leaves `fc_store` entries
default-initialized (indeterminate POD fields) until the algorithm writes
them; the model zero-fills them, which no verified property depends on
(`initialize` overwrites every list link). -/
def defaultSimplexF : SimplexF :=
  ⟨Vec3.zero, 0, fun _ => 0, fun _ => none, none, none, fun _ => 0, 0⟩

/-- The rank-0 simplex with zeroed storage. -/
def emptySimplex : Simplex := ⟨fun _ => ⟨Vec3.zero, Vec3.zero⟩, fun _ => 0, 0⟩

/-- The member state of an `EPA` object right before its constructor body
runs: `hull` and `stock` are default-constructed to empty lists
(`SimplexList()`); the remaining POD members are indeterminate in C++ and
zero-filled in the model (the constructor immediately overwrites every
field the claims inspect). -/
def emptyEPAState : EPAState :=
  { status := EPAStatus.Failed
    result := emptySimplex
    normal := Vec3.zero
    depth := 0
    sv_store := fun _ => ⟨Vec3.zero, Vec3.zero⟩
    fc_store := fun _ => defaultSimplexF
    nextsv := 0
    hull := ⟨none, 0⟩
    stock := ⟨none, 0⟩ }

/-- A freshly constructed `EPA` engine: `EPA() { initialize(); }`. -/
def EPAconstructed : EPAState := EPAState.epaInit emptyEPAState

/-- The list of arena indices reached from a root pointer by following
`l[1]` (next) links, with enough fuel to traverse the whole arena. -/
def chainFrom (F : Fin EPA_MAX_FACES → SimplexF) :
    Option (Fin EPA_MAX_FACES) → Nat → List (Fin EPA_MAX_FACES)
  | _, 0 => []
  | none, _ + 1 => []
  | some i, fuel + 1 => i :: chainFrom F (F i).l1 fuel

/-- The trivial support mapping (a degenerate shape pinned at the
origin); used to instantiate witness statements. -/
def zeroShape : ShapeBase := fun _ => Vec3.zero

/-- The identity rotation matrix. -/
def idRot : Matrix3 := ⟨⟨1, 0, 0⟩, ⟨0, 1, 0⟩, ⟨0, 0, 1⟩⟩

/-- The identity rigid transform. -/
def idTf : SimpleTransform := ⟨idRot, Vec3.zero⟩

/-- A `GJK::evaluate` semantics that terminates `Valid` with an empty
terminal simplex; used to instantiate witness statements. -/
def gjkValidC : MinkowskiDiff → Vec3 → GJKOutcome :=
  fun _ _ => ⟨GJKStatus.Valid, emptySimplex⟩

/-- A `GJK::evaluate` semantics that terminates `Inside` with an empty
terminal simplex; used to instantiate witness statements. -/
def gjkInsideC : MinkowskiDiff → Vec3 → GJKOutcome :=
  fun _ _ => ⟨GJKStatus.Inside, emptySimplex⟩

/-- An `EPA::evaluate` semantics that terminates with status
`Degenerated` — a status the spec classifies as a degenerate-geometry
failure. -/
def epaDegC : GJKOutcome → Vec3 → EPAOutcome :=
  fun _ _ => ⟨EPAStatus.Degenerated, emptySimplex, Vec3.zero, 0⟩

/-- An `EPA::evaluate` semantics that terminates with the spec's normal
success status `AccuracyReached`, normal `(0,0,1)` and depth `2`. -/
def epaArC : GJKOutcome → Vec3 → EPAOutcome :=
  fun _ _ => ⟨EPAStatus.AccuracyReached, emptySimplex, ⟨0, 0, 1⟩, 2⟩

/-- C3: `MinkowskiDiff::support(d)` equals `support0(d) - support1(-d)`,
where `support0(d)` is shape 0's support point in its own frame and
`support1(d)` queries shape 1 along the rotated direction
`toshape1 * d` and maps the result into shape 0's frame by the rigid
transform `toshape0`. -/
theorem minkowski_support_decomposition (m : MinkowskiDiff) (d : Vec3) :
    m.support d = m.support0 d - m.support1 (-d) ∧
    m.support0 d = getSupport (m.shapes 0) d ∧
    m.support1 d = m.toshape0.transform (getSupport (m.shapes 1) (m.toshape1.mulVec d)) :=
  ⟨rfl, rfl, rfl⟩

/-- C5: the compile-time budgets of `gjk.h`: GJK iterates at most 128
times with epsilon 1e-6, EPA at most 255 times with epsilon 1e-6, and
the EPA arenas (`EPAState.fc_store : Fin EPA_MAX_FACES → SimplexF`,
`EPAState.sv_store : Fin EPA_MAX_VERTICES → SimplexV`) are fixed-size
stores of exactly 128 face slots and 64 vertex slots — their index types
have cardinality 128 and 64 and admit no growth. -/
theorem compile_time_budgets :
    GJK_MAX_ITERATIONS = 128 ∧ GJK_EPS = 1 / 1000000 ∧
    EPA_MAX_ITERATIONS = 255 ∧ EPA_EPS = 1 / 1000000 ∧
    EPA_MAX_FACES = 128 ∧ EPA_MAX_VERTICES = 64 ∧
    Fintype.card (Fin EPA_MAX_FACES) = 128 ∧
    Fintype.card (Fin EPA_MAX_VERTICES) = 64 := by
  refine ⟨rfl, rfl, rfl, rfl, rfl, rfl, ?_, ?_⟩ <;>
    simp [EPA_MAX_FACES, EPA_MAX_VERTICES]

/-- C6: after `bind(fa, ea, fb, eb)` the adjacency is symmetric: `fa`'s
neighbor at edge `ea` is `fb` with recorded local edge `eb`, and `fb`'s
neighbor at edge `eb` is `fa` with recorded local edge `ea` — for every
pair of faces (aliasing included) and edge indices in `[0, 3)`. -/
theorem bind_symmetric (F : Fin EPA_MAX_FACES → SimplexF)
    (fa : Fin EPA_MAX_FACES) (ea : Fin 3) (fb : Fin EPA_MAX_FACES) (eb : Fin 3) :
    ((EPAbind F fa ea fb eb) fa).f ea = some fb ∧
    ((EPAbind F fa ea fb eb) fa).e ea = eb.val ∧
    ((EPAbind F fa ea fb eb) fb).f eb = some fa ∧
    ((EPAbind F fa ea fb eb) fb).e eb = ea.val := by
  by_cases hab : fa = fb
  · subst hab
    by_cases he : ea = eb
    · subst he
      simp [EPAbind, Function.update_apply]
    · refine ⟨?_, ?_, ?_, ?_⟩ <;>
        simp [EPAbind, Function.update_apply, he, Ne.symm he]
  · refine ⟨?_, ?_, ?_, ?_⟩ <;>
      simp [EPAbind, Function.update_apply, hab, Ne.symm hab]

/-- The pair of results of running `shapeDistance2` twice on the same
inputs. -/
noncomputable def distanceTwoRuns (g : MinkowskiDiff → Vec3 → GJKOutcome)
    (s1 : ShapeBase) (tf1 : SimpleTransform) (s2 : ShapeBase) (tf2 : SimpleTransform) :
    (Bool × ℝ) × (Bool × ℝ) :=
  (shapeDistance2 g s1 tf1 s2 tf2, shapeDistance2 g s1 tf1 s2 tf2)

/-- The pair of results of running `shapeIntersect2` twice on the same
inputs. -/
def intersectTwoRuns (g : MinkowskiDiff → Vec3 → GJKOutcome)
    (e : GJKOutcome → Vec3 → EPAOutcome)
    (s1 : ShapeBase) (tf1 : SimpleTransform) (s2 : ShapeBase) (tf2 : SimpleTransform) :
    Option (Vec3 × ℚ × Vec3) × Option (Vec3 × ℚ × Vec3) :=
  (shapeIntersect2 g e s1 tf1 s2 tf2, shapeIntersect2 g e s1 tf1 s2 tf2)

/-- C7: the query entry points are deterministic two-run functions of
their inputs: for the same shapes, transforms and deterministic evaluate
semantics, two invocations yield identical results.  Each invocation
constructs its own engines (modelled by the per-call `gjkOutOf` /
`epaOutOf` terms inside the entry points) and reads no state besides its
arguments, so both components of a two-run pair coincide. -/
theorem queries_deterministic (g : MinkowskiDiff → Vec3 → GJKOutcome)
    (e : GJKOutcome → Vec3 → EPAOutcome)
    (s1 : ShapeBase) (tf1 : SimpleTransform) (s2 : ShapeBase) (tf2 : SimpleTransform) :
    (distanceTwoRuns g s1 tf1 s2 tf2).1 = (distanceTwoRuns g s1 tf1 s2 tf2).2 ∧
    (intersectTwoRuns g e s1 tf1 s2 tf2).1 = (intersectTwoRuns g e s1 tf1 s2 tf2).2 :=
  ⟨rfl, rfl⟩

/-- C1 (counterexample): `shapeIntersect2` reports an intersection even
when EPA terminates with `Degenerated`, a status the spec classifies as
a non-success ("degenerate geometry ... surfaced to the caller as 'no
reliable result'"): the source only tests `epa_status != EPA::Failed`.
So the claim "reports no intersection whenever EPA terminates with any
non-success status" is false at this input. -/
theorem intersect_degenerated_counterexample :
    EPAStatus.specFailure EPAStatus.Degenerated = true ∧
    (epaOutOf gjkInsideC epaDegC zeroShape idTf zeroShape idTf).status =
      EPAStatus.Degenerated ∧
    (shapeIntersect2 gjkInsideC epaDegC zeroShape idTf zeroShape idTf).isSome = true := by
  refine ⟨rfl, rfl, ?_⟩
  rfl

/-- C1 (amended): `shapeIntersect2` reports no intersection whenever GJK
terminates `Valid` or `Failed`, and whenever EPA terminates `Failed`; it
reports an intersection exactly when GJK reports `Inside` and EPA
terminates with any status other than `Failed` (the source's only
success test is `epa_status != EPA::Failed`). -/
theorem shapeIntersect2_reports_iff (g : MinkowskiDiff → Vec3 → GJKOutcome)
    (e : GJKOutcome → Vec3 → EPAOutcome)
    (s1 : ShapeBase) (tf1 : SimpleTransform) (s2 : ShapeBase) (tf2 : SimpleTransform) :
    (shapeIntersect2 g e s1 tf1 s2 tf2).isSome = true ↔
      ((gjkOutOf g s1 tf1 s2 tf2).status = GJKStatus.Inside ∧
       (epaOutOf g e s1 tf1 s2 tf2).status ≠ EPAStatus.Failed) := by
  unfold shapeIntersect2
  cases hg : (gjkOutOf g s1 tf1 s2 tf2).status <;> simp [hg]

/-- C1 (witness for the amended claim): at a concrete input with GJK
`Inside` and EPA `AccuracyReached`, an intersection is reported. -/
theorem shapeIntersect2_reports_iff_witness :
    (shapeIntersect2 gjkInsideC epaArC zeroShape idTf zeroShape idTf).isSome = true :=
  (shapeIntersect2_reports_iff gjkInsideC epaArC zeroShape idTf zeroShape idTf).mpr
    ⟨rfl, by decide⟩

/-- C2: `shapeDistance2` returns `true` with `*distance` equal to the
length of `w0 - w1` — `w0`/`w1` the barycentric-weighted sums of the
terminal simplex's per-shape support points (`support(d_i, 0)` resp.
`support(-d_i, 1)`, weighted by `p_i`) — if and only if GJK terminates
`Valid`; on `Inside` or `Failed` it returns `false` (no distance). -/
theorem shapeDistance2_valid_iff (g : MinkowskiDiff → Vec3 → GJKOutcome)
    (s1 : ShapeBase) (tf1 : SimpleTransform) (s2 : ShapeBase) (tf2 : SimpleTransform) :
    (shapeDistance2 g s1 tf1 s2 tf2 =
        (true,
          Vec3.length
            (witnessSum0 (mkMinkowskiDiff s1 tf1 s2 tf2) (gjkOutOf g s1 tf1 s2 tf2).simplex -
             witnessSum1 (mkMinkowskiDiff s1 tf1 s2 tf2) (gjkOutOf g s1 tf1 s2 tf2).simplex)) ↔
      (gjkOutOf g s1 tf1 s2 tf2).status = GJKStatus.Valid) ∧
    ((gjkOutOf g s1 tf1 s2 tf2).status = GJKStatus.Inside ∨
        (gjkOutOf g s1 tf1 s2 tf2).status = GJKStatus.Failed →
      (shapeDistance2 g s1 tf1 s2 tf2).1 = false) := by
  unfold shapeDistance2
  cases hg : (gjkOutOf g s1 tf1 s2 tf2).status <;> simp [hg, Prod.ext_iff]

/-- C2 (witness): at a concrete input whose GJK semantics terminates
`Valid`, `shapeDistance2` returns `true` with the reconstructed witness
separation. -/
theorem shapeDistance2_valid_iff_witness :
    shapeDistance2 gjkValidC zeroShape idTf zeroShape idTf =
      (true,
        Vec3.length
          (witnessSum0 (mkMinkowskiDiff zeroShape idTf zeroShape idTf)
              (gjkOutOf gjkValidC zeroShape idTf zeroShape idTf).simplex -
           witnessSum1 (mkMinkowskiDiff zeroShape idTf zeroShape idTf)
              (gjkOutOf gjkValidC zeroShape idTf zeroShape idTf).simplex)) :=
  (shapeDistance2_valid_iff gjkValidC zeroShape idTf zeroShape idTf).1.mpr rfl

/-- C4: when `shapeIntersect2` reports an intersection, the penetration
depth written is `-epa.depth`, the normal written is `-epa.normal`, and
the contact point is the barycentric-weighted shape-0 witness point of
EPA's result simplex, offset by `-epa.normal * (epa.depth * 0.5)` and
transformed by `tf1` back into the caller's frame. -/
theorem shapeIntersect2_outputs (g : MinkowskiDiff → Vec3 → GJKOutcome)
    (e : GJKOutcome → Vec3 → EPAOutcome)
    (s1 : ShapeBase) (tf1 : SimpleTransform) (s2 : ShapeBase) (tf2 : SimpleTransform)
    (h1 : (gjkOutOf g s1 tf1 s2 tf2).status = GJKStatus.Inside)
    (h2 : (epaOutOf g e s1 tf1 s2 tf2).status ≠ EPAStatus.Failed) :
    shapeIntersect2 g e s1 tf1 s2 tf2 =
      some
        (tf1.transform
          (witnessSum0 (mkMinkowskiDiff s1 tf1 s2 tf2) (epaOutOf g e s1 tf1 s2 tf2).result -
           (epaOutOf g e s1 tf1 s2 tf2).normal *
             ((epaOutOf g e s1 tf1 s2 tf2).depth * (0.5 : ℚ))),
         -(epaOutOf g e s1 tf1 s2 tf2).depth,
         -(epaOutOf g e s1 tf1 s2 tf2).normal) := by
  unfold shapeIntersect2
  rw [h1]
  simp [h2]

/-- C4 (witness): concrete evaluation with GJK `Inside` and EPA
`AccuracyReached`, normal `(0,0,1)`, depth `2`. -/
theorem shapeIntersect2_outputs_witness :
    shapeIntersect2 gjkInsideC epaArC zeroShape idTf zeroShape idTf =
      some
        (idTf.transform
          (witnessSum0 (mkMinkowskiDiff zeroShape idTf zeroShape idTf)
              (epaOutOf gjkInsideC epaArC zeroShape idTf zeroShape idTf).result -
           (epaOutOf gjkInsideC epaArC zeroShape idTf zeroShape idTf).normal *
             ((epaOutOf gjkInsideC epaArC zeroShape idTf zeroShape idTf).depth * (0.5 : ℚ))),
         -(epaOutOf gjkInsideC epaArC zeroShape idTf zeroShape idTf).depth,
         -(epaOutOf gjkInsideC epaArC zeroShape idTf zeroShape idTf).normal) :=
  shapeIntersect2_outputs gjkInsideC epaArC zeroShape idTf zeroShape idTf rfl (by decide)

/-- C8: whenever `shapeDistance2` returns `false` (GJK `Inside` or
`Failed`), it still writes `-1` through the distance output pointer. -/
theorem shapeDistance2_failure_writes (g : MinkowskiDiff → Vec3 → GJKOutcome)
    (s1 : ShapeBase) (tf1 : SimpleTransform) (s2 : ShapeBase) (tf2 : SimpleTransform)
    (h : (gjkOutOf g s1 tf1 s2 tf2).status = GJKStatus.Inside ∨
         (gjkOutOf g s1 tf1 s2 tf2).status = GJKStatus.Failed) :
    shapeDistance2 g s1 tf1 s2 tf2 = (false, -1) := by
  unfold shapeDistance2
  rcases h with h | h <;> rw [h]

/-- C8 (witness): concrete evaluation with GJK `Inside`. -/
theorem shapeDistance2_failure_writes_witness :
    shapeDistance2 gjkInsideC zeroShape idTf zeroShape idTf = (false, -1) :=
  shapeDistance2_failure_writes gjkInsideC zeroShape idTf zeroShape idTf (Or.inl rfl)

set_option maxRecDepth 4000

/-- Each pass of the `EPA::initialize` loop grows `stock.count` by one
and leaves `hull` (and the scalar engine fields) untouched. -/
theorem foldl_stockRefill_count (l : List (Fin EPA_MAX_FACES)) (st : EPAState) :
    (l.foldl stockRefill st).stock.count = st.stock.count + l.length ∧
    (l.foldl stockRefill st).hull = st.hull := by
  induction l generalizing st with
  | nil => simp
  | cons a t ih =>
      have h := ih (stockRefill st a)
      simp only [List.foldl_cons, List.length_cons]
      refine ⟨?_, ?_⟩
      · rw [h.1]
        simp [stockRefill, listAppend]
        omega
      · rw [h.2]
        simp [stockRefill]

/-- C9: a freshly constructed `EPA` engine has its whole face arena free:
`stock.count = 128` with the stock chain threading every arena index in
order, the hull list empty, `nextsv = 0`, `depth = 0`, a zero `normal`,
and status `Failed`; moreover `initialize` appends all 128 face slots to
`stock` without first clearing the lists (from any prior state it adds
exactly 128 to `stock.count` and leaves `hull` as it was). -/
theorem epa_fresh_state :
    EPAconstructed.stock.count = EPA_MAX_FACES ∧
    chainFrom EPAconstructed.fc_store EPAconstructed.stock.root EPA_MAX_FACES =
      List.finRange EPA_MAX_FACES ∧
    EPAconstructed.hull.root = none ∧
    EPAconstructed.hull.count = 0 ∧
    EPAconstructed.nextsv = 0 ∧
    EPAconstructed.depth = 0 ∧
    EPAconstructed.normal = Vec3.zero ∧
    EPAconstructed.status = EPAStatus.Failed ∧
    (∀ s : EPAState,
      (EPAState.epaInit s).stock.count = s.stock.count + EPA_MAX_FACES ∧
      (EPAState.epaInit s).hull = s.hull) := by
  refine ⟨by decide, by decide, by decide, by decide, by decide, by decide, by decide,
    by decide, ?_⟩
  intro s
  have h := foldl_stockRefill_count (List.finRange EPA_MAX_FACES)
    { s with status := EPAStatus.Failed, normal := Vec3.zero, depth := 0, nextsv := 0 }
  constructor
  · have h1 := h.1
    simpa [EPAState.epaInit, List.length_finRange] using h1
  · have h2 := h.2
    simpa [EPAState.epaInit] using h2

/-- C10: appending a face not in the list and immediately removing it is
a round trip: the list's root and count, and both links of the
previously-first face, return to their values before the append.  A list
state is one in which the first face has no predecessor (`l[0] = NULL`),
the invariant `append` establishes and `remove` preserves. -/
theorem listAppend_listRemove_roundtrip (F : Fin EPA_MAX_FACES → SimplexF)
    (L : SimplexList) (face : Fin EPA_MAX_FACES)
    (hroot : ∀ r, L.root = some r → (F r).l0 = none)
    (hne : ∀ r, L.root = some r → face ≠ r) :
    (listRemove (listAppend F L face).1 (listAppend F L face).2 face).2.root = L.root ∧
    (listRemove (listAppend F L face).1 (listAppend F L face).2 face).2.count = L.count ∧
    (∀ r, L.root = some r →
      ((listRemove (listAppend F L face).1 (listAppend F L face).2 face).1 r).l0 =
        (F r).l0 ∧
      ((listRemove (listAppend F L face).1 (listAppend F L face).2 face).1 r).l1 =
        (F r).l1) := by
  cases hL : L.root with
  | none =>
      refine ⟨?_, ?_, ?_⟩
      · simp [listAppend, listRemove, hL, Function.update_apply]
      · simp [listAppend, listRemove, hL]
      · intro r hr
        exact absurd hr (by simp)
  | some r =>
      have hfr : face ≠ r := hne r hL
      have hl0 : (F r).l0 = none := hroot r hL
      refine ⟨?_, ?_, ?_⟩
      · simp [listAppend, listRemove, hL, Function.update_apply, hfr, hl0]
      · simp [listAppend, listRemove, hL]
      · intro r' hr'
        obtain rfl : r = r' := Option.some.inj hr'
        constructor <;>
          simp [listAppend, listRemove, hL, Function.update_apply, hfr, Ne.symm hfr, hl0]

/-- The all-default face arena; used to instantiate witness statements. -/
def arenaC : Fin EPA_MAX_FACES → SimplexF := fun _ => defaultSimplexF

/-- Arena index 0. -/
def faceIdx0 : Fin EPA_MAX_FACES := ⟨0, by decide⟩

/-- Arena index 1. -/
def faceIdx1 : Fin EPA_MAX_FACES := ⟨1, by decide⟩

/-- A one-element list rooted at face 0 over the default arena. -/
def listC : SimplexList := ⟨some faceIdx0, 1⟩

/-- C10 (witness): concrete round trip — append face 1 to a singleton
list rooted at face 0, remove it again, and recover root, count and the
links of face 0. -/
theorem listAppend_listRemove_roundtrip_witness :
    (listRemove (listAppend arenaC listC faceIdx1).1 (listAppend arenaC listC faceIdx1).2
        faceIdx1).2.root = listC.root ∧
    (listRemove (listAppend arenaC listC faceIdx1).1 (listAppend arenaC listC faceIdx1).2
        faceIdx1).2.count = listC.count ∧
    (∀ r, listC.root = some r →
      ((listRemove (listAppend arenaC listC faceIdx1).1 (listAppend arenaC listC faceIdx1).2
          faceIdx1).1 r).l0 = (arenaC r).l0 ∧
      ((listRemove (listAppend arenaC listC faceIdx1).1 (listAppend arenaC listC faceIdx1).2
          faceIdx1).1 r).l1 = (arenaC r).l1) :=
  listAppend_listRemove_roundtrip arenaC listC faceIdx1 (by decide) (by decide)
